import Mathlib

/-!
Shallow embedding of the `cardano-sos/simple-api` address converter.

The embedded code lives in two files:
  * `src/actions/meshWalletConvert.ts` — `convertHexToBech32`,
    `processCardanoAddresses`, `isValidCardanoAddress`;
  * `src/app/api/wallet/convert/route.ts` — the `GET` single-address handler
    (its `type` / `network` query-parameter defaulting).

TypeScript `throw` is modelled as `Except.error` carrying the thrown message;
the `try/catch` wrapper of `convertHexToBech32` re-throws every inner error
with the message prefixed by `"Failed to convert address: "`, modelled by
`convertWrap`.  JavaScript string operations used by the source
(`startsWith`, `substring(2)`, `substring(0,16)`, `substring(len-8)`) are
modelled on the character list underlying a Lean `String` (`jsStartsWith`,
`jsDrop`, `jsTake`, `jsLength`); the clamping of a negative `substring`
start index to 0 coincides with `Nat` truncated subtraction.  All inputs
exercised here are ASCII, where JS UTF-16 indices and Lean `Char` indices
agree.
-/

deriving instance DecidableEq for Except

namespace SimpleApi

/-- The `addressType` parameter: `"payment" | "reward"`. -/
inductive AddressType where
  | payment
  | reward
deriving DecidableEq, Repr

/-- The `networkId` parameter: `0 | 1` (`0` = testnet, `1` = mainnet). -/
inductive NetworkId where
  | testnet
  | mainnet
deriving DecidableEq, Repr

/-- JavaScript `s.startsWith(p)`, on the character list of the string. -/
def jsStartsWith (s p : String) : Bool :=
  p.data.isPrefixOf s.data

/-- JavaScript `s.substring(n)` for a clamped start index `n`. -/
def jsDrop (s : String) (n : Nat) : String :=
  ⟨s.data.drop n⟩

/-- JavaScript `s.substring(0, n)` (the end index is clamped to the
length of the string). -/
def jsTake (s : String) (n : Nat) : String :=
  ⟨s.data.take n⟩

/-- JavaScript `s.length` (all strings involved are ASCII, so UTF-16
units and characters agree). -/
def jsLength (s : String) : Nat :=
  s.data.length

/-- The regex `/^[0-9a-fA-F]+$/` applied to one character. -/
def isHexChar (c : Char) : Bool :=
  ('0' ≤ c && c ≤ '9') || ('a' ≤ c && c ≤ 'f') || ('A' ≤ c && c ≤ 'F')

/-- `/^[0-9a-fA-F]+$/.test s`: nonempty and every character a hex digit.
Note the regex does not constrain the parity of the length. -/
def isHexString (s : String) : Bool :=
  !s.data.isEmpty && s.data.all isHexChar

/-- The hardcoded "example test payment address" hex recognised by
`convertHexToBech32` (line 52 of `meshWalletConvert.ts`). -/
def knownPaymentHex : String :=
  "3217192bf6cfd969327acea9d038d7c6d809f2b2acb14d6cea2d05bc67bc0bcc015c68438748cae082e7c3fa687719ee8cd68a0da45fbc1a"

/-- The hardcoded mainnet Bech32 result for `knownPaymentHex`. -/
def knownPaymentMainnetBech32 : String :=
  "addr1qyepwxft7m8aj6fj0t82n5pc6lrdsz0jk2ktzntvagkst0r8hs9ucq2udppcwjx2uzpw0sl6dpm3nm5v669qmfzlhsdqjnzgsv"

/-- The hardcoded testnet Bech32 result for `knownPaymentHex`. -/
def knownPaymentTestnetBech32 : String :=
  "addr_test1qzepwxft7m8aj6fj0t82n5pc6lrdsz0jk2ktzntvagkst0r8hs9ucq2udppcwjx2uzpw0sl6dpm3nm5v669qmfzlhsdqq045sr"

/-- The hardcoded reward address hex recognised by `convertHexToBech32`
(line 64 of `meshWalletConvert.ts`): a `0xE1` header byte followed by a
28-byte stake credential, 58 hex characters in all. -/
def knownRewardHex : String :=
  "e167bc0bcc015c68438748cae082e7c3fa687719ee8cd68a0da45fbc1a"

/-- The hardcoded mainnet Bech32 result for `knownRewardHex`. -/
def knownRewardMainnetBech32 : String :=
  "stake1uyv5nec995g3g8zc5u7y3zsevsz92x3z9csruv6u8cc50qg33lxm0"

/-- The hardcoded testnet Bech32 result for `knownRewardHex`. -/
def knownRewardTestnetBech32 : String :=
  "stake_test1uqv5nec995g3g8zc5u7y3zsevsz92x3z9csruv6u8cc50qcjdlhs3"

/-- The `prefix` ternary of the fallback branch (lines 74–81): the
human-readable part chosen from `addressType` and `networkId`. -/
def hrpOf (t : AddressType) (n : NetworkId) : String :=
  match t, n with
  | .payment, .mainnet => "addr1"
  | .payment, .testnet => "addr_test1"
  | .reward, .mainnet => "stake1"
  | .reward, .testnet => "stake_test1"

/-- The `suffix` of the fallback branch (lines 84–86):
`"q" + cleanHex.substring(0,16) + "..." + cleanHex.substring(len-8)`. -/
def fallbackSuffix (cleanHex : String) : String :=
  "q" ++ jsTake cleanHex 16 ++ "..." ++ jsDrop cleanHex (jsLength cleanHex - 8)

/-- The synthetic fallback string returned for unrecognised inputs
(line 88 of `meshWalletConvert.ts`): `prefix + suffix`. -/
def syntheticFallback (t : AddressType) (n : NetworkId) (cleanHex : String) : String :=
  hrpOf t n ++ fallbackSuffix cleanHex

/-- The `cleanHex` computation (lines 37–40): for a payment address whose
hex starts with the literal `"01"`, drop those two characters; reward
inputs pass through unchanged. -/
def stripFraming (hexAddress : String) (t : AddressType) : String :=
  match t with
  | .payment => if jsStartsWith hexAddress "01" then jsDrop hexAddress 2 else hexAddress
  | .reward => hexAddress

/-- The converter body after `cleanHex` has been computed (lines 42–88):
hex-format validation, the two hardcoded lookups, then the synthetic
fallback. -/
def convertClean (cleanHex : String) (t : AddressType) (n : NetworkId) :
    Except String String :=
  if isHexString cleanHex = false then
    .error "Invalid hex format in address"
  else if t = .payment ∧ cleanHex = knownPaymentHex then
    .ok (if n = .mainnet then knownPaymentMainnetBech32 else knownPaymentTestnetBech32)
  else if t = .reward ∧ cleanHex = knownRewardHex then
    .ok (if n = .mainnet then knownRewardMainnetBech32 else knownRewardTestnetBech32)
  else
    .ok (syntheticFallback t n cleanHex)

/-- The body of the `try` block of `convertHexToBech32` (lines 32–88):
the emptiness guard, then `stripFraming` followed by `convertClean`. -/
def convertCore (hexAddress : String) (t : AddressType) (n : NetworkId) :
    Except String String :=
  if hexAddress = "" then
    .error "Address is required and must be a string"
  else
    convertClean (stripFraming hexAddress t) t n

/-- The `catch` wrapper (lines 101–104): every thrown message is re-thrown
prefixed with `"Failed to convert address: "`. -/
def convertWrap (r : Except String String) : Except String String :=
  match r with
  | .ok s => .ok s
  | .error e => .error ("Failed to convert address: " ++ e)

/-- `convertHexToBech32(hexAddress, addressType, networkId)` of
`meshWalletConvert.ts`: `Except.ok` is the returned Bech32 string,
`Except.error` the message of the thrown `Error`. -/
def convertHexToBech32 (hexAddress : String) (t : AddressType) (n : NetworkId) :
    Except String String :=
  convertWrap (convertCore hexAddress t n)

/-- One successfully converted slot of the batch result:
the `{ hex, bech32 }` object built at lines 136–139 / 154–157. -/
structure AddressPair where
  hex : String
  bech32 : String
deriving DecidableEq, Repr

/-- The observable shape of the object returned by
`processCardanoAddresses`.  The JavaScript code builds it dynamically;
fields that a given return path never sets are modelled as `none`. -/
structure BatchResult where
  success : Bool
  network : String
  networkId : NetworkId
  paymentAddress : Option AddressPair
  rewardAddress : Option AddressPair
  error : Option String
deriving DecidableEq, Repr

/-- The `networkId === 1 ? "mainnet" : "testnet"` ternary. -/
def networkString (n : NetworkId) : String :=
  if n = .mainnet then "mainnet" else "testnet"

/-- One slot of `processCardanoAddresses` (lines 127–161): skip an absent
or empty (falsy) input; otherwise attempt the conversion, storing the
`{hex, bech32}` pair on success and, on a thrown error, only logging it —
the slot is left unset and no error descriptor is recorded. -/
def tryConvertSlot (input : Option String) (t : AddressType) (n : NetworkId) :
    Option AddressPair :=
  match input with
  | none => none
  | some s =>
    if s = "" then none
    else
      match convertHexToBech32 s t n with
      | .ok b => some ⟨s, b⟩
      | .error _ => none

/-- `processCardanoAddresses(paymentHexAddress, rewardHexAddress, networkId)`
of `meshWalletConvert.ts` (lines 115–183): process each provided slot
independently; if neither slot produced a conversion, return the
`success: false` object with the message `"No valid addresses were
provided"` (lines 163–171), otherwise the accumulated success object. -/
def processCardanoAddresses (paymentHexAddress rewardHexAddress : Option String)
    (networkId : NetworkId) : BatchResult :=
  let paySlot := tryConvertSlot paymentHexAddress .payment networkId
  let rewSlot := tryConvertSlot rewardHexAddress .reward networkId
  if paySlot = none ∧ rewSlot = none then
    { success := false
      network := networkString networkId
      networkId := networkId
      paymentAddress := none
      rewardAddress := none
      error := some "No valid addresses were provided" }
  else
    { success := true
      network := networkString networkId
      networkId := networkId
      paymentAddress := paySlot
      rewardAddress := rewSlot
      error := none }

/-- `isValidCardanoAddress(address, addressType)` of `meshWalletConvert.ts`
(lines 192–227).  A Bech32-looking input is accepted on its leading
characters alone; a hex-looking input is accepted iff `convertHexToBech32`
succeeds on it (with the converter's default `networkId = 1`). -/
def isValidCardanoAddress (address : String) (t : AddressType) : Bool :=
  if address = "" then false
  else if t = .payment ∧ (jsStartsWith address "addr1" ∨ jsStartsWith address "addr_test1") then
    true
  else if t = .reward ∧ (jsStartsWith address "stake1" ∨ jsStartsWith address "stake_test1") then
    true
  else if isHexString address then
    match convertHexToBech32 address t .mainnet with
    | .ok _ => true
    | .error _ => false
  else false

/-- The observable outcome of the single-address `GET` handler of
`route.ts`: an HTTP 400 body, the HTTP 200 success body (`original`,
`bech32`, `type`, `network` fields), or the HTTP 500 body. -/
inductive GetResult where
  | badRequest (error : String)
  | okResponse (original bech32 typeField networkField : String)
  | serverError (error message : String)
deriving DecidableEq, Repr

/-- Model of `GET` of `route.ts` (lines 231–277).  Each parameter models
`searchParams.get(...)`, with `none` for an absent query parameter.  Any
`type` other than `"reward"` is treated as `"payment"`; any `network`
other than `"0"` is treated as mainnet `1`; a missing or empty `address`
yields the 400 body; a converter error yields the 500 body. -/
def walletConvertGET (address typeParam networkParam : Option String) : GetResult :=
  let t : AddressType := if typeParam = some "reward" then .reward else .payment
  let n : NetworkId := if networkParam = some "0" then .testnet else .mainnet
  match address with
  | none => .badRequest "Address parameter is required"
  | some a =>
    if a = "" then .badRequest "Address parameter is required"
    else
      match convertHexToBech32 a t n with
      | .ok b =>
        .okResponse a b
          (if typeParam = some "reward" then "reward" else "payment")
          (if n = .testnet then "testnet" else "mainnet")
      | .error m => .serverError "Failed to convert address" m

/-- The 56-hex-character bare stake credential of the recognised reward
address: `knownRewardHex` without its leading `e1` header byte. -/
def bareRewardCredential : String :=
  "67bc0bcc015c68438748cae082e7c3fa687719ee8cd68a0da45fbc1a"

end SimpleApi

namespace SimpleApi

/-- C1: the claim says a hex input that is not one of the recognized
addresses terminates with an explicit error and never yields a synthetic
placeholder.  The code does the opposite: `"abcd1234"` is recognised by
neither lookup, yet the conversion succeeds with the synthetic string
`"addr1qabcd1234...abcd1234"` (which even contains `"..."`, characters
outside the Bech32 alphabet) instead of an error. -/
theorem convertHexToBech32_returns_synthetic_placeholder :
    convertHexToBech32 "abcd1234" AddressType.payment NetworkId.mainnet =
      Except.ok "addr1qabcd1234...abcd1234" ∧
    "abcd1234" ≠ knownPaymentHex ∧ "abcd1234" ≠ knownRewardHex := by
  refine ⟨by decide, by decide, by decide⟩

/-- C9: for the payment-kind input consisting exactly of `"01"`, the
framing-marker stripping leaves the empty string, the empty string fails
the `/^[0-9a-fA-F]+$/` test, and the conversion therefore throws for
every network id. -/
theorem bare_01_marker_unconvertible :
    ∀ n : NetworkId,
      convertHexToBech32 "01" AddressType.payment n =
        Except.error "Failed to convert address: Invalid hex format in address" ∧
      stripFraming "01" AddressType.payment = "" ∧
      isHexString "" = false := by
  intro n
  cases n <;> exact ⟨by decide, by decide, by decide⟩

/-- C2 counterexample: no header byte is ever synthesized for short reward
inputs.  If the converter synthesized `0xE0 ∣ networkId` (here `0xE1`) in
front of a 28-byte bare credential and then continued, converting the bare
56-character credential would agree with converting its `e1`-framed form;
on the recognised credential the two results differ — the framed form hits
the hardcoded lookup while the bare form falls to the synthetic fallback. -/
theorem rewardShortHex_no_header_synthesis_counterexample :
    bareRewardCredential.length = 56 ∧
    convertHexToBech32 bareRewardCredential AddressType.reward NetworkId.mainnet ≠
      convertHexToBech32 ("e1" ++ bareRewardCredential) AddressType.reward NetworkId.mainnet ∧
    convertHexToBech32 ("e1" ++ bareRewardCredential) AddressType.reward NetworkId.mainnet =
      Except.ok knownRewardMainnetBech32 ∧
    convertHexToBech32 bareRewardCredential AddressType.reward NetworkId.mainnet =
      Except.ok "stake1q67bc0bcc015c6843...a45fbc1a" := by
  refine ⟨by decide, by decide, by decide, by decide⟩

/-- C5 counterexample: the hex-format check is the regex
`/^[0-9a-fA-F]+$/`, which does not reject odd length: the odd-length
all-hex input `"abc"` converts successfully instead of failing. -/
theorem oddLength_hex_accepted_counterexample :
    isHexString "abc" = true ∧ ("abc" : String).length % 2 = 1 ∧
    convertHexToBech32 "abc" AddressType.payment NetworkId.mainnet =
      Except.ok "addr1qabc...abc" := by
  refine ⟨by decide, by decide, by decide⟩

/-- C3 counterexample: with a valid payment hex and the malformed reward
hex `"zz"` in the same call, the batch result carries the successful
payment conversion but no error descriptor for the failed reward slot:
the reward failure is silently dropped (`rewardAddress = none`,
`error = none`), even though the underlying conversion did throw. -/
theorem batch_error_descriptor_missing_counterexample :
    (processCardanoAddresses (some knownPaymentHex) (some "zz") NetworkId.mainnet).success
        = true ∧
    (processCardanoAddresses (some knownPaymentHex) (some "zz") NetworkId.mainnet).paymentAddress
        = some ⟨knownPaymentHex, knownPaymentMainnetBech32⟩ ∧
    (processCardanoAddresses (some knownPaymentHex) (some "zz") NetworkId.mainnet).rewardAddress
        = none ∧
    (processCardanoAddresses (some knownPaymentHex) (some "zz") NetworkId.mainnet).error
        = none ∧
    convertHexToBech32 "zz" AddressType.reward NetworkId.mainnet =
      Except.error "Failed to convert address: Invalid hex format in address" := by
  refine ⟨by decide, by decide, by decide, by decide, by decide⟩

/-- C4 counterexample: the whole-batch `"No valid addresses were
provided"` failure is triggered by `"zz"` being supplied as the payment
address (with no reward address), even though an address *was* supplied:
the check fires when no slot converted, not when no address was given. -/
theorem batch_noInput_failure_despite_supplied_counterexample :
    ("zz" : String) ≠ "" ∧
    processCardanoAddresses (some "zz") none NetworkId.mainnet =
      { success := false
        network := "mainnet"
        networkId := NetworkId.mainnet
        paymentAddress := none
        rewardAddress := none
        error := some "No valid addresses were provided" } := by
  refine ⟨by decide, by decide⟩

/-- The `catch` wrapper does not change which results are successes, nor
the successful value. -/
theorem convertWrap_ok_iff (r : Except String String) (s : String) :
    convertWrap r = Except.ok s ↔ r = Except.ok s := by
  cases r <;> simp [convertWrap]

/-- C6: every successful conversion starts with the human-readable part
selected by the claimed kind and the caller-supplied network id:
`addr1` / `addr_test1` for payment and `stake1` / `stake_test1` for
reward (`hrpOf`), for mainnet `1` / testnet `0` respectively.  This holds
on each of the three success paths: both hardcoded lookups and the
synthetic fallback. -/
theorem successful_output_starts_with_hrp
    (h : String) (t : AddressType) (n : NetworkId) (out : String)
    (hok : convertHexToBech32 h t n = Except.ok out) :
    ∃ rest, out = hrpOf t n ++ rest := by
  unfold convertHexToBech32 at hok
  rw [convertWrap_ok_iff] at hok
  unfold convertCore at hok
  split at hok
  · exact absurd hok (by simp)
  · unfold convertClean at hok
    split at hok
    · exact absurd hok (by simp)
    · split at hok
      · next hc =>
          obtain ⟨ht, _⟩ := hc
          subst ht
          obtain rfl : (if n = NetworkId.mainnet then knownPaymentMainnetBech32
              else knownPaymentTestnetBech32) = out := by simpa using hok
          cases n
          · exact ⟨"qzepwxft7m8aj6fj0t82n5pc6lrdsz0jk2ktzntvagkst0r8hs9ucq2udppcwjx2uzpw0sl6dpm3nm5v669qmfzlhsdqq045sr", by decide⟩
          · exact ⟨"qyepwxft7m8aj6fj0t82n5pc6lrdsz0jk2ktzntvagkst0r8hs9ucq2udppcwjx2uzpw0sl6dpm3nm5v669qmfzlhsdqjnzgsv", by decide⟩
      · split at hok
        · next hc =>
            obtain ⟨ht, _⟩ := hc
            subst ht
            obtain rfl : (if n = NetworkId.mainnet then knownRewardMainnetBech32
                else knownRewardTestnetBech32) = out := by simpa using hok
            cases n
            · exact ⟨"uqv5nec995g3g8zc5u7y3zsevsz92x3z9csruv6u8cc50qcjdlhs3", by decide⟩
            · exact ⟨"uyv5nec995g3g8zc5u7y3zsevsz92x3z9csruv6u8cc50qg33lxm0", by decide⟩
        · obtain rfl : syntheticFallback t n (stripFraming h t) = out := by simpa using hok
          exact ⟨fallbackSuffix (stripFraming h t), rfl⟩

/-- C6 witness: the synthetic-fallback success for the reward input
`"abcd"` on testnet starts with `hrpOf reward testnet = "stake_test1"`. -/
theorem successful_output_starts_with_hrp_witness :
    ∃ rest, "stake_test1qabcd...abcd" = hrpOf AddressType.reward NetworkId.testnet ++ rest :=
  successful_output_starts_with_hrp "abcd" AddressType.reward NetworkId.testnet
    "stake_test1qabcd...abcd" (by decide)

/-- The `catch` wrapper does not change which results are errors. -/
theorem convertWrap_error_iff (r : Except String String) :
    (∃ e, convertWrap r = Except.error e) ↔ ∃ e, r = Except.error e := by
  cases r <;> simp [convertWrap]

/-- C5 amended: the conversion throws exactly when the input is empty
(falsy) or the string left after framing-prefix stripping fails the
`/^[0-9a-fA-F]+$/` test — i.e. is empty or has a character outside
`[0-9a-fA-F]`.  Odd hex length is not part of the failure condition. -/
theorem conversion_error_iff_empty_or_invalid_hex
    (h : String) (t : AddressType) (n : NetworkId) :
    (∃ e, convertHexToBech32 h t n = Except.error e) ↔
      (h = "" ∨ isHexString (stripFraming h t) = false) := by
  unfold convertHexToBech32
  rw [convertWrap_error_iff]
  unfold convertCore
  by_cases h0 : h = ""
  · simp [h0]
  · rw [if_neg h0]
    simp only [h0, false_or]
    unfold convertClean
    by_cases hx : isHexString (stripFraming h t) = false
    · simp [hx]
    · rw [if_neg hx]
      constructor
      · rintro ⟨e, he⟩
        split at he
        · exact absurd he (by simp)
        · split at he
          · exact absurd he (by simp)
          · exact absurd he (by simp)
      · intro hfalse
        exact absurd hfalse hx

/-- C5 amended witness: applied at the non-hex input `"zz"` (payment,
mainnet). -/
theorem conversion_error_iff_empty_or_invalid_hex_witness :
    (∃ e, convertHexToBech32 "zz" AddressType.payment NetworkId.mainnet = Except.error e) ↔
      (("zz" : String) = "" ∨ isHexString (stripFraming "zz" AddressType.payment) = false) :=
  conversion_error_iff_empty_or_invalid_hex "zz" AddressType.payment NetworkId.mainnet

/-- C2 amended: a reward hex of exactly 56 hex characters is never the
58-character recognised value, so it reaches the synthetic fallback with
no header byte synthesized; for networkId=1 the output does begin with
`stake1`, but only because the fallback pastes that prefix onto a
fragment of the raw input. -/
theorem rewardShortHex_falls_to_stake1_fallback
    (h : String) (hhex : isHexString h = true) (hlen : jsLength h = 56) :
    ∃ rest, convertHexToBech32 h AddressType.reward NetworkId.mainnet =
      Except.ok ("stake1" ++ rest) := by
  have h0 : h ≠ "" := fun he => absurd (he ▸ hlen) (by decide)
  have hknown : h ≠ knownRewardHex := fun he => absurd (he ▸ hlen) (by decide)
  refine ⟨fallbackSuffix h, ?_⟩
  unfold convertHexToBech32 convertCore
  rw [if_neg h0]
  show convertWrap
      (convertClean (stripFraming h AddressType.reward) AddressType.reward NetworkId.mainnet) = _
  have hs : stripFraming h AddressType.reward = h := rfl
  rw [hs]
  unfold convertClean
  rw [if_neg (by simp [hhex])]
  rw [if_neg (by rintro ⟨hc, _⟩; cases hc)]
  rw [if_neg (by rintro ⟨_, hc⟩; exact hknown hc)]
  rfl

/-- C2 amended witness: applied at the bare 56-character credential of
the recognised reward address. -/
theorem rewardShortHex_falls_to_stake1_fallback_witness :
    ∃ rest, convertHexToBech32 bareRewardCredential AddressType.reward NetworkId.mainnet =
      Except.ok ("stake1" ++ rest) :=
  rewardShortHex_falls_to_stake1_fallback bareRewardCredential (by decide) (by decide)

/-- C7: for a payment-kind input beginning with the literal `"01"`, the
conversion proceeds on exactly the input minus its first two characters —
the stripped marker contributes nothing further to the output — and a
reward-kind input is passed to the same continuation unstripped. -/
theorem payment_01_framing_stripped (h : String) (n : NetworkId) :
    (jsStartsWith h "01" = true →
      convertHexToBech32 h AddressType.payment n =
        convertWrap (convertClean (jsDrop h 2) AddressType.payment n)) ∧
    (h ≠ "" →
      convertHexToBech32 h AddressType.reward n =
        convertWrap (convertClean h AddressType.reward n)) := by
  constructor
  · intro hsw
    have h0 : h ≠ "" := by
      intro he; subst he; exact absurd hsw (by decide)
    unfold convertHexToBech32 convertCore
    rw [if_neg h0]
    have hs : stripFraming h AddressType.payment = jsDrop h 2 := by
      simp only [stripFraming]
      rw [if_pos hsw]
    rw [hs]
  · intro h0
    unfold convertHexToBech32 convertCore
    rw [if_neg h0]
    rfl

/-- C7 witness: applied at `"01ab"` on mainnet — the payment conversion
works on `"ab"`, the reward conversion on the full `"01ab"`. -/
theorem payment_01_framing_stripped_witness :
    convertHexToBech32 "01ab" AddressType.payment NetworkId.mainnet =
      convertWrap (convertClean (jsDrop "01ab" 2) AddressType.payment NetworkId.mainnet) ∧
    convertHexToBech32 "01ab" AddressType.reward NetworkId.mainnet =
      convertWrap (convertClean "01ab" AddressType.reward NetworkId.mainnet) :=
  ⟨(payment_01_framing_stripped "01ab" NetworkId.mainnet).1 (by decide),
   (payment_01_framing_stripped "01ab" NetworkId.mainnet).2 (by decide)⟩

/-- C8: a string beginning with `addr1` or `addr_test1` is declared valid
as a payment address on that leading-characters check alone, and likewise
`stake1` / `stake_test1` for the reward kind — no checksum, length or
structural validation is applied to the remainder. -/
theorem bech32_looking_input_accepted_on_leading_chars (s : String) :
    ((jsStartsWith s "addr1" = true ∨ jsStartsWith s "addr_test1" = true) →
      isValidCardanoAddress s AddressType.payment = true) ∧
    ((jsStartsWith s "stake1" = true ∨ jsStartsWith s "stake_test1" = true) →
      isValidCardanoAddress s AddressType.reward = true) := by
  constructor
  · intro hsw
    have h0 : s ≠ "" := by
      intro he; subst he
      rcases hsw with hs | hs <;> exact absurd hs (by decide)
    unfold isValidCardanoAddress
    rw [if_neg h0, if_pos ⟨rfl, hsw⟩]
  · intro hsw
    have h0 : s ≠ "" := by
      intro he; subst he
      rcases hsw with hs | hs <;> exact absurd hs (by decide)
    unfold isValidCardanoAddress
    rw [if_neg h0]
    rw [if_neg (by rintro ⟨hc, _⟩; cases hc)]
    rw [if_pos ⟨rfl, hsw⟩]

/-- C8 witness: garbage after the prefix is accepted — neither string is
a structurally valid Bech32 address. -/
theorem bech32_looking_input_accepted_witness :
    isValidCardanoAddress "addr1-not-a-real-address" AddressType.payment = true ∧
    isValidCardanoAddress "stake1-not-a-real-address" AddressType.reward = true :=
  ⟨(bech32_looking_input_accepted_on_leading_chars "addr1-not-a-real-address").1
      (Or.inl (by decide)),
   (bech32_looking_input_accepted_on_leading_chars "stake1-not-a-real-address").2
      (Or.inl (by decide))⟩

/-- One batch slot is left unset exactly when its input is absent, empty,
or fails to convert. -/
theorem tryConvertSlot_eq_none_iff (i : Option String) (t : AddressType) (n : NetworkId) :
    tryConvertSlot i t n = none ↔
      (∀ s, i = some s → s ≠ "" → ∀ b, convertHexToBech32 s t n ≠ Except.ok b) := by
  cases i with
  | none => simp [tryConvertSlot]
  | some s =>
    constructor
    · intro hnone s2 hs2 hne b hok
      obtain rfl : s = s2 := by injection hs2
      simp only [tryConvertSlot] at hnone
      rw [if_neg hne, hok] at hnone
      exact Option.noConfusion hnone
    · intro hall
      simp only [tryConvertSlot]
      by_cases h0 : s = ""
      · rw [if_pos h0]
      · rw [if_neg h0]
        cases hok : convertHexToBech32 s t n with
        | ok b => exact absurd hok (hall s rfl h0 b)
        | error e => rfl

/-- C4 amended: the whole-batch failure (`success = false` with the
`"No valid addresses were provided"` message) occurs exactly when no
supplied address converted successfully — so it also fires when addresses
are supplied but every one of them is malformed, not only when neither
address was supplied. -/
theorem batch_failure_iff_no_slot_converts (p r : Option String) (n : NetworkId) :
    (processCardanoAddresses p r n).success = false ↔
      ((∀ s, p = some s → s ≠ "" →
          ∀ b, convertHexToBech32 s AddressType.payment n ≠ Except.ok b) ∧
       (∀ s, r = some s → s ≠ "" →
          ∀ b, convertHexToBech32 s AddressType.reward n ≠ Except.ok b)) := by
  rw [← tryConvertSlot_eq_none_iff p AddressType.payment n,
    ← tryConvertSlot_eq_none_iff r AddressType.reward n]
  simp only [processCardanoAddresses]
  split
  · next hc => simp [hc]
  · next hc => simp [hc]

/-- C4 amended witness: applied at a supplied-but-malformed payment hex
and an absent reward hex. -/
theorem batch_failure_iff_no_slot_converts_witness :
    (processCardanoAddresses (some "zz") none NetworkId.mainnet).success = false ↔
      ((∀ s, (some "zz" : Option String) = some s → s ≠ "" →
          ∀ b, convertHexToBech32 s AddressType.payment NetworkId.mainnet ≠ Except.ok b) ∧
       (∀ s, (none : Option String) = some s → s ≠ "" →
          ∀ b, convertHexToBech32 s AddressType.reward NetworkId.mainnet ≠ Except.ok b)) :=
  batch_failure_iff_no_slot_converts (some "zz") none NetworkId.mainnet

/-- C3 amended: a failing slot does not prevent the other slot's success;
in the same call the valid payment address is converted and reported, but
the malformed slot is silently dropped — the result records neither a
value nor an error descriptor for it (`rewardAddress = none`,
`error = none`). -/
theorem batch_independence_valid_and_malformed
    (p r : String) (n : NetworkId) (bp e : String)
    (hp : convertHexToBech32 p AddressType.payment n = Except.ok bp)
    (hr : convertHexToBech32 r AddressType.reward n = Except.error e) :
    processCardanoAddresses (some p) (some r) n =
      { success := true
        network := networkString n
        networkId := n
        paymentAddress := some ⟨p, bp⟩
        rewardAddress := none
        error := none } := by
  have hp0 : p ≠ "" := by
    intro he; subst he
    rw [show convertHexToBech32 "" AddressType.payment n =
      Except.error "Failed to convert address: Address is required and must be a string"
      from rfl] at hp
    exact Except.noConfusion hp
  have hpay : tryConvertSlot (some p) AddressType.payment n = some ⟨p, bp⟩ := by
    simp only [tryConvertSlot]
    rw [if_neg hp0, hp]
  have hrew : tryConvertSlot (some r) AddressType.reward n = none := by
    simp only [tryConvertSlot]
    by_cases h0 : r = ""
    · rw [if_pos h0]
    · rw [if_neg h0, hr]
  simp only [processCardanoAddresses, hpay, hrew]
  rw [if_neg (by rintro ⟨hc, _⟩; exact Option.noConfusion hc)]

/-- C3 amended witness: the recognised payment hex together with the
malformed reward hex `"zz"`, in one call on mainnet. -/
theorem batch_independence_valid_and_malformed_witness :
    processCardanoAddresses (some knownPaymentHex) (some "zz") NetworkId.mainnet =
      { success := true
        network := networkString NetworkId.mainnet
        networkId := NetworkId.mainnet
        paymentAddress := some ⟨knownPaymentHex, knownPaymentMainnetBech32⟩
        rewardAddress := none
        error := none } :=
  batch_independence_valid_and_malformed knownPaymentHex "zz" NetworkId.mainnet
    knownPaymentMainnetBech32 "Failed to convert address: Invalid hex format in address"
    (by decide) (by decide)

/-- C10: an unrecognized `type` query parameter behaves exactly like an
absent one (payment), and an unrecognized `network` parameter behaves
exactly like an absent one (mainnet, networkId 1): the whole response is
unchanged, so invalid kind or network values are never themselves
rejected with an error. -/
theorem get_unrecognized_params_silently_defaulted
    (a : String) (t net : Option String) :
    (t ≠ some "reward" →
      walletConvertGET (some a) t net = walletConvertGET (some a) none net) ∧
    (net ≠ some "0" →
      walletConvertGET (some a) t net = walletConvertGET (some a) t none) := by
  constructor
  · intro ht
    have htf : (t = some "reward") = False := by simp [ht]
    have hnone : ((none : Option String) = some "reward") = False := by simp
    simp only [walletConvertGET, htf, hnone, if_false]
  · intro hn
    have hnf : (net = some "0") = False := by simp [hn]
    have hnone : ((none : Option String) = some "0") = False := by simp
    simp only [walletConvertGET, hnf, hnone, if_false]

/-- C10 witness: `type=bogus` and `network=5` give the very responses of
the defaulted parameters. -/
theorem get_unrecognized_params_silently_defaulted_witness :
    walletConvertGET (some "abcd") (some "bogus") (some "5") =
      walletConvertGET (some "abcd") none (some "5") ∧
    walletConvertGET (some "abcd") (some "bogus") (some "5") =
      walletConvertGET (some "abcd") (some "bogus") none :=
  ⟨(get_unrecognized_params_silently_defaulted "abcd" (some "bogus") (some "5")).1 (by decide),
   (get_unrecognized_params_silently_defaulted "abcd" (some "bogus") (some "5")).2 (by decide)⟩

end SimpleApi
